import Mathlib

/-!
# EditExistingPartitionDialog

A shallow embedding of `src/modules/partition/gui/EditExistingPartitionDialog.cpp`
(Calamares partition module) and proofs about its two decision procedures,
`applyChanges` and `updateMountPointPicker`.

Objects that the dialog reaches through pointers (`Partition*`) live in an explicit
heap; the calls made on the `PartitionCoreModule` are recorded in order, each together
with the heap as it is when the call is made.
-/

namespace Calamares

/-! ## KPMcore data -/

/-- KPMcore `FileSystem::Type`. The enumerators the dialog names are kept by name; every
other enumerator of the library is `other tag`. -/
inductive FileSystemType where
  | Unknown
  | Extended
  | Ext4
  | LinuxSwap
  | Unformatted
  | Lvm2_PV
  | other (tag : Nat)
  deriving DecidableEq, Repr

/-- KPMcore `PartitionRole::Roles`: the single role flags. -/
inductive RoleFlag where
  | Primary
  | Extended
  | Logical
  | Unallocated
  deriving DecidableEq, Repr

/-- KPMcore `PartitionRole`: a set of role flags. -/
structure PartitionRole where
  roles : List RoleFlag
  deriving DecidableEq, Repr

/-- KPMcore `PartitionRole::has`: is the flag among the roles. -/
def PartitionRole.has (r : PartitionRole) (f : RoleFlag) : Bool :=
  r.roles.contains f

/-- Address of a `Device`. -/
abbrev DevicePtr := Nat

/-- Address of a `PartitionNode` (the parent of a partition). -/
abbrev PartitionNodePtr := Nat

/-- Address of a `Partition`. -/
abbrev PartitionPtr := Nat

/-- A `Partition` object: what the dialog reads through the KPMcore getters `parent()`,
`roles()`, `fileSystem().type()`, `firstSector()`, `lastSector()` (sectors are `qint64`,
only compared and passed on), and the two Calamares properties kept by `PartitionInfo`. -/
structure Partition where
  parent : PartitionNodePtr
  roles : PartitionRole
  fileSystemType : FileSystemType
  firstSector : Int
  lastSector : Int
  mountPoint : String
  format : Bool
  deriving DecidableEq, Repr

namespace PartitionInfo

/-- Modelled from the spec: `core/PartitionInfo` is not among the sources. It is the
per-partition property store of the installer; `mountPoint` returns what `setMountPoint`
stored. -/
def mountPoint (p : Partition) : String := p.mountPoint

/-- Modelled from the spec: `core/PartitionInfo` is not among the sources. Stores the mount
point property and leaves every other attribute of the partition alone. -/
def setMountPoint (p : Partition) (value : String) : Partition :=
  { p with mountPoint := value }

/-- Modelled from the spec: `core/PartitionInfo` is not among the sources. Stores the format
property and leaves every other attribute of the partition alone. -/
def setFormat (p : Partition) (value : Bool) : Partition :=
  { p with format := value }

end PartitionInfo

/-- The collaborators of the dialog whose code lies outside this file: KPMcore
`FileSystem::typeForName` and the helper `KPMHelpers::createNewPartition`, which returns the
freshly built partition object. Nothing is assumed about either. -/
structure Externals where
  typeForName : String → FileSystemType
  createNewPartition :
    PartitionNodePtr → DevicePtr → PartitionRole → FileSystemType → Int → Int → Partition

/-! ## The partition core module -/

/-- A call on `PartitionCoreModule`, with its arguments. -/
inductive CoreCall where
  | createPartition (device : DevicePtr) (partition : PartitionPtr)
  | deletePartition (device : DevicePtr) (partition : PartitionPtr)
  | resizePartition (device : DevicePtr) (partition : PartitionPtr) (first last : Int)
  | formatPartition (device : DevicePtr) (partition : PartitionPtr)
  | refreshPartition (device : DevicePtr) (partition : PartitionPtr)
  deriving DecidableEq, Repr

/-- A call received by the core module together with the partition objects as they are at
the moment of the call. -/
structure CoreEvent where
  call : CoreCall
  seen : PartitionPtr → Partition

/-- The state outside the dialog: the partition objects by address, the address the next
`new Partition` gets, and the calls the core module has received, oldest first. -/
structure World where
  partitions : PartitionPtr → Partition
  next : PartitionPtr
  core : List CoreEvent

namespace World

/-- The calls received by the core module, oldest first, without the heap snapshots. -/
def calls (w : World) : List CoreCall := w.core.map CoreEvent.call

/-- Overwrite the object at address `p`. -/
def store (w : World) (p : PartitionPtr) (v : Partition) : World :=
  { w with partitions := fun q => if q = p then v else w.partitions q }

/-- Allocation `new Partition`: the object is placed at the next free address. -/
def alloc (w : World) (v : Partition) : PartitionPtr × World :=
  (w.next, { (w.store w.next v) with next := w.next + 1 })

/-- The call `PartitionInfo::setMountPoint( p, value )` on the object at address `p`. -/
def setMountPoint (w : World) (p : PartitionPtr) (value : String) : World :=
  w.store p (PartitionInfo.setMountPoint (w.partitions p) value)

/-- The call `PartitionInfo::setFormat( p, value )` on the object at address `p`. -/
def setFormat (w : World) (p : PartitionPtr) (value : Bool) : World :=
  w.store p (PartitionInfo.setFormat (w.partitions p) value)

/-- A call `core->...`: the core module receives it and sees the partition objects as they
are. -/
def coreCall (w : World) (c : CoreCall) : World :=
  { w with core := w.core ++ [⟨c, w.partitions⟩] }

end World

/-! ## Widgets -/

/-- A `QRadioButton`, as far as the dialog reads it. -/
structure QAbstractButton where
  checked : Bool
  deriving DecidableEq, Repr

/-- Qt `QAbstractButton::isChecked`. -/
def QAbstractButton.isChecked (b : QAbstractButton) : Bool := b.checked

/-- A `QLabel`, as far as the dialog writes it. -/
structure QLabel where
  enabled : Bool
  deriving DecidableEq, Repr

/-- Qt `QWidget::setEnabled` on a label. -/
def QLabel.setEnabled (l : QLabel) (e : Bool) : QLabel := { l with enabled := e }

/-- A `QComboBox`: its current text and whether it is enabled. -/
structure QComboBox where
  currentText : String
  enabled : Bool
  deriving DecidableEq, Repr

/-- Qt `QWidget::setEnabled` on a combo box. -/
def QComboBox.setEnabled (c : QComboBox) (e : Bool) : QComboBox := { c with enabled := e }

/-- Qt `QComboBox::setCurrentText` on an editable combo box (the mount point box takes free
text): the text becomes the current text. -/
def QComboBox.setCurrentText (c : QComboBox) (text : String) : QComboBox :=
  { c with currentText := text }

/-- The widgets of `Ui_EditExistingPartitionDialog` that the two procedures touch. -/
structure Ui_EditExistingPartitionDialog where
  formatRadioButton : QAbstractButton
  fileSystemComboBox : QComboBox
  mountPointLabel : QLabel
  mountPointComboBox : QComboBox
  deriving DecidableEq, Repr

/-- The `PartitionSizeController`, as far as `applyChanges` reads it. -/
structure PartitionSizeController where
  firstSector : Int
  lastSector : Int
  deriving DecidableEq, Repr

/-- The dialog object. -/
structure EditExistingPartitionDialog where
  m_ui : Ui_EditExistingPartitionDialog
  m_device : DevicePtr
  m_partition : PartitionPtr
  m_partitionSizeController : PartitionSizeController
  deriving DecidableEq, Repr

namespace EditExistingPartitionDialog

/-! ## applyChanges -/

/-- The local `partitionChanged` of `applyChanges` (source lines 112-114), read on the
partition object `part`. -/
def partitionChanged (d : EditExistingPartitionDialog) (part : Partition) : Bool :=
  d.m_partitionSizeController.firstSector != part.firstSector
    || d.m_partitionSizeController.lastSector != part.lastSector

/-- The local `fsType` of `applyChanges` (source lines 116-122), read on the partition
object `part`. -/
def fsType (x : Externals) (d : EditExistingPartitionDialog) (part : Partition) :
    FileSystemType :=
  if d.m_ui.formatRadioButton.isChecked then
    (if part.roles.has RoleFlag.Extended then FileSystemType.Extended
     else x.typeForName d.m_ui.fileSystemComboBox.currentText)
  else FileSystemType.Unknown

/-- Source function `EditExistingPartitionDialog::applyChanges( PartitionCoreModule* core )`,
statement by statement; `w` carries the partition objects and the core module. -/
def applyChanges (x : Externals) (d : EditExistingPartitionDialog) (w : World) : World :=
  let w := w.setMountPoint d.m_partition d.m_ui.mountPointComboBox.currentText
  let newFirstSector := d.m_partitionSizeController.firstSector
  let newLastSector := d.m_partitionSizeController.lastSector
  let changed := partitionChanged d (w.partitions d.m_partition)
  let fs := fsType x d (w.partitions d.m_partition)
  if changed then
    if d.m_ui.formatRadioButton.isChecked then
      let r := w.alloc (x.createNewPartition
        (w.partitions d.m_partition).parent
        d.m_device
        (w.partitions d.m_partition).roles
        fs
        newFirstSector
        newLastSector)
      let newPartition := r.1
      let w := r.2
      let w := w.setMountPoint newPartition (PartitionInfo.mountPoint (w.partitions d.m_partition))
      let w := w.setFormat newPartition true
      let w := w.coreCall (CoreCall.deletePartition d.m_device d.m_partition)
      w.coreCall (CoreCall.createPartition d.m_device newPartition)
    else
      w.coreCall (CoreCall.resizePartition d.m_device d.m_partition newFirstSector newLastSector)
  else
    if d.m_ui.formatRadioButton.isChecked then
      if (w.partitions d.m_partition).fileSystemType = fs then
        w.coreCall (CoreCall.formatPartition d.m_device d.m_partition)
      else
        let r := w.alloc (x.createNewPartition
          (w.partitions d.m_partition).parent
          d.m_device
          (w.partitions d.m_partition).roles
          fs
          (w.partitions d.m_partition).firstSector
          (w.partitions d.m_partition).lastSector)
        let newPartition := r.1
        let w := r.2
        let w := w.setMountPoint newPartition (PartitionInfo.mountPoint (w.partitions d.m_partition))
        let w := w.setFormat newPartition true
        let w := w.coreCall (CoreCall.deletePartition d.m_device d.m_partition)
        w.coreCall (CoreCall.createPartition d.m_device newPartition)
    else
      w.coreCall (CoreCall.refreshPartition d.m_device d.m_partition)

/-- The delete-and-recreate block that `applyChanges` has twice (source lines 128-139 with
the controller's sectors, lines 161-172 with the partition's), as a function of the
filesystem type and the two sectors: `createNewPartition`, the two `PartitionInfo` setters on
the new object, then `deletePartition` and `createPartition` on the core. -/
def recreate (x : Externals) (d : EditExistingPartitionDialog) (w : World)
    (fs : FileSystemType) (first last : Int) : World :=
  let r := w.alloc (x.createNewPartition
    (w.partitions d.m_partition).parent
    d.m_device
    (w.partitions d.m_partition).roles
    fs
    first
    last)
  let newPartition := r.1
  let w := r.2
  let w := w.setMountPoint newPartition (PartitionInfo.mountPoint (w.partitions d.m_partition))
  let w := w.setFormat newPartition true
  let w := w.coreCall (CoreCall.deletePartition d.m_device d.m_partition)
  w.coreCall (CoreCall.createPartition d.m_device newPartition)

/-! ## updateMountPointPicker -/

/-- The local `fsType` of `updateMountPointPicker` (source lines 203-212). -/
def pickerFsType (x : Externals) (d : EditExistingPartitionDialog) (w : World) :
    FileSystemType :=
  if d.m_ui.formatRadioButton.isChecked then
    x.typeForName d.m_ui.fileSystemComboBox.currentText
  else
    (w.partitions d.m_partition).fileSystemType

/-- The local `canMount` of `updateMountPointPicker` (source lines 213-221). -/
def canMount (t : FileSystemType) : Bool :=
  if t = FileSystemType.Extended
      || t = FileSystemType.LinuxSwap
      || t = FileSystemType.Unformatted
      || t = FileSystemType.Unknown
      || t = FileSystemType.Lvm2_PV then false
  else true

/-- Source function `EditExistingPartitionDialog::updateMountPointPicker()`, statement by
statement; it reads the partition object and writes widgets only. -/
def updateMountPointPicker (x : Externals) (d : EditExistingPartitionDialog) (w : World) :
    EditExistingPartitionDialog :=
  let cm := canMount (pickerFsType x d w)
  let ui := d.m_ui
  let ui := { ui with mountPointLabel := ui.mountPointLabel.setEnabled cm }
  let ui := { ui with mountPointComboBox := ui.mountPointComboBox.setEnabled cm }
  let ui :=
    if !cm then
      { ui with mountPointComboBox := ui.mountPointComboBox.setCurrentText "" }
    else ui
  { d with m_ui := ui }

/-- The calls `applyChanges` makes on the core module: the calls in the log after the run
that were not in it before. -/
def callsMade (x : Externals) (d : EditExistingPartitionDialog) (w : World) :
    List CoreCall :=
  (applyChanges x d w).calls.drop w.calls.length

/-- The calls `applyChanges` makes on the core module, each with the heap it is made in. -/
def eventsMade (x : Externals) (d : EditExistingPartitionDialog) (w : World) :
    List CoreEvent :=
  (applyChanges x d w).core.drop w.core.length

/-! ## Concrete states

Small concrete collaborators, partitions and dialog states on which the procedures are
evaluated. -/

namespace Demo

/-- A name table for `typeForName` and a `createNewPartition` that stores its arguments. -/
def externals : Externals where
  typeForName := fun s =>
    if s = "ext4" then FileSystemType.Ext4
    else if s = "linuxswap" then FileSystemType.LinuxSwap
    else if s = "xfs" then FileSystemType.other 11
    else FileSystemType.Unknown
  createNewPartition := fun parent _ roles fs first last =>
    { parent := parent, roles := roles, fileSystemType := fs, firstSector := first,
      lastSector := last, mountPoint := "", format := false }

/-- A primary ext4 partition on sectors 2048..4095. -/
def primaryPartition : Partition :=
  { parent := 3, roles := ⟨[RoleFlag.Primary]⟩, fileSystemType := FileSystemType.Ext4,
    firstSector := 2048, lastSector := 4095, mountPoint := "/old", format := false }

/-- An extended partition on sectors 2048..4095. -/
def extendedPartition : Partition :=
  { parent := 3, roles := ⟨[RoleFlag.Extended]⟩, fileSystemType := FileSystemType.Extended,
    firstSector := 2048, lastSector := 4095, mountPoint := "", format := false }

/-- A swap partition on sectors 2048..4095. -/
def swapPartition : Partition :=
  { parent := 3, roles := ⟨[RoleFlag.Primary]⟩, fileSystemType := FileSystemType.LinuxSwap,
    firstSector := 2048, lastSector := 4095, mountPoint := "", format := false }

/-- A world whose only partition object, at address 0, is `p`; the core has seen no call. -/
def world (p : Partition) : World :=
  { partitions := fun _ => p, next := 1, core := [] }

/-- A dialog on device 7 and the partition at address 0. -/
def dialog (doFormat : Bool) (fsText mountText : String) (first last : Int) :
    EditExistingPartitionDialog :=
  { m_ui :=
      { formatRadioButton := ⟨doFormat⟩
        fileSystemComboBox := ⟨fsText, doFormat⟩
        mountPointLabel := ⟨true⟩
        mountPointComboBox := ⟨mountText, true⟩ }
    m_device := 7
    m_partition := 0
    m_partitionSizeController := ⟨first, last⟩ }

end Demo

/-! ## Heap and log lemmas -/

@[simp] theorem calls_coreCall (w : World) (c : CoreCall) :
    (w.coreCall c).calls = w.calls ++ [c] := by
  simp [World.coreCall, World.calls]

@[simp] theorem calls_store (w : World) (p : PartitionPtr) (v : Partition) :
    (w.store p v).calls = w.calls := rfl

@[simp] theorem calls_setMountPoint (w : World) (p : PartitionPtr) (s : String) :
    (w.setMountPoint p s).calls = w.calls := rfl

@[simp] theorem calls_setFormat (w : World) (p : PartitionPtr) (b : Bool) :
    (w.setFormat p b).calls = w.calls := rfl

@[simp] theorem calls_alloc (w : World) (v : Partition) :
    (w.alloc v).2.calls = w.calls := rfl

@[simp] theorem fst_alloc (w : World) (v : Partition) : (w.alloc v).1 = w.next := rfl

/-- The body of `applyChanges` with its two delete-and-recreate blocks named. -/
theorem applyChanges_blocks (x : Externals) (d : EditExistingPartitionDialog) (w : World) :
    applyChanges x d w =
      (if partitionChanged d ((w.setMountPoint d.m_partition
            d.m_ui.mountPointComboBox.currentText).partitions d.m_partition) then
        if d.m_ui.formatRadioButton.isChecked then
          recreate x d (w.setMountPoint d.m_partition d.m_ui.mountPointComboBox.currentText)
            (fsType x d ((w.setMountPoint d.m_partition
              d.m_ui.mountPointComboBox.currentText).partitions d.m_partition))
            d.m_partitionSizeController.firstSector d.m_partitionSizeController.lastSector
        else
          (w.setMountPoint d.m_partition d.m_ui.mountPointComboBox.currentText).coreCall
            (CoreCall.resizePartition d.m_device d.m_partition
              d.m_partitionSizeController.firstSector d.m_partitionSizeController.lastSector)
      else
        if d.m_ui.formatRadioButton.isChecked then
          if ((w.setMountPoint d.m_partition
                d.m_ui.mountPointComboBox.currentText).partitions d.m_partition).fileSystemType
              = fsType x d ((w.setMountPoint d.m_partition
                  d.m_ui.mountPointComboBox.currentText).partitions d.m_partition) then
            (w.setMountPoint d.m_partition d.m_ui.mountPointComboBox.currentText).coreCall
              (CoreCall.formatPartition d.m_device d.m_partition)
          else
            recreate x d (w.setMountPoint d.m_partition d.m_ui.mountPointComboBox.currentText)
              (fsType x d ((w.setMountPoint d.m_partition
                d.m_ui.mountPointComboBox.currentText).partitions d.m_partition))
              ((w.setMountPoint d.m_partition
                d.m_ui.mountPointComboBox.currentText).partitions d.m_partition).firstSector
              ((w.setMountPoint d.m_partition
                d.m_ui.mountPointComboBox.currentText).partitions d.m_partition).lastSector
        else
          (w.setMountPoint d.m_partition d.m_ui.mountPointComboBox.currentText).coreCall
            (CoreCall.refreshPartition d.m_device d.m_partition)) := rfl

theorem calls_recreate (x : Externals) (d : EditExistingPartitionDialog) (w : World)
    (fs : FileSystemType) (first last : Int) :
    (recreate x d w fs first last).calls
      = w.calls ++ [CoreCall.deletePartition d.m_device d.m_partition,
                    CoreCall.createPartition d.m_device w.next] := by
  simp [recreate]

/-- The calls of `applyChanges`, branch by branch, read on the partition object as it is
before the run. -/
theorem calls_applyChanges (x : Externals) (d : EditExistingPartitionDialog) (w : World) :
    (applyChanges x d w).calls = w.calls ++
      (if partitionChanged d (w.partitions d.m_partition) then
        (if d.m_ui.formatRadioButton.isChecked then
          [CoreCall.deletePartition d.m_device d.m_partition,
           CoreCall.createPartition d.m_device w.next]
         else
          [CoreCall.resizePartition d.m_device d.m_partition
            d.m_partitionSizeController.firstSector d.m_partitionSizeController.lastSector])
       else
        (if d.m_ui.formatRadioButton.isChecked then
          (if (w.partitions d.m_partition).fileSystemType
                = fsType x d (w.partitions d.m_partition) then
            [CoreCall.formatPartition d.m_device d.m_partition]
           else
            [CoreCall.deletePartition d.m_device d.m_partition,
             CoreCall.createPartition d.m_device w.next])
         else
          [CoreCall.refreshPartition d.m_device d.m_partition])) := by
  have hp : ((w.setMountPoint d.m_partition d.m_ui.mountPointComboBox.currentText).partitions
      d.m_partition) = PartitionInfo.setMountPoint (w.partitions d.m_partition)
        d.m_ui.mountPointComboBox.currentText := by
    simp [World.setMountPoint, World.store]
  have hnext : (w.setMountPoint d.m_partition d.m_ui.mountPointComboBox.currentText).next
      = w.next := rfl
  have hc : ∀ t, partitionChanged d (PartitionInfo.setMountPoint (w.partitions d.m_partition) t)
      = partitionChanged d (w.partitions d.m_partition) := fun _ => rfl
  have hf : ∀ t, fsType x d (PartitionInfo.setMountPoint (w.partitions d.m_partition) t)
      = fsType x d (w.partitions d.m_partition) := fun _ => rfl
  have ht : ∀ t, (PartitionInfo.setMountPoint (w.partitions d.m_partition) t).fileSystemType
      = (w.partitions d.m_partition).fileSystemType := fun _ => rfl
  rw [applyChanges_blocks]
  simp only [hp, hc, hf, ht]
  split_ifs <;> simp [calls_recreate, hnext]

theorem callsMade_eq (x : Externals) (d : EditExistingPartitionDialog) (w : World) :
    callsMade x d w =
      (if partitionChanged d (w.partitions d.m_partition) then
        (if d.m_ui.formatRadioButton.isChecked then
          [CoreCall.deletePartition d.m_device d.m_partition,
           CoreCall.createPartition d.m_device w.next]
         else
          [CoreCall.resizePartition d.m_device d.m_partition
            d.m_partitionSizeController.firstSector d.m_partitionSizeController.lastSector])
       else
        (if d.m_ui.formatRadioButton.isChecked then
          (if (w.partitions d.m_partition).fileSystemType
                = fsType x d (w.partitions d.m_partition) then
            [CoreCall.formatPartition d.m_device d.m_partition]
           else
            [CoreCall.deletePartition d.m_device d.m_partition,
             CoreCall.createPartition d.m_device w.next])
         else
          [CoreCall.refreshPartition d.m_device d.m_partition])) := by
  unfold callsMade
  rw [calls_applyChanges]
  simp

theorem partitionChanged_iff (d : EditExistingPartitionDialog) (part : Partition) :
    partitionChanged d part = true ↔
      (d.m_partitionSizeController.firstSector ≠ part.firstSector
        ∨ d.m_partitionSizeController.lastSector ≠ part.lastSector) := by
  simp [partitionChanged]

theorem core_recreate (x : Externals) (d : EditExistingPartitionDialog) (w : World)
    (fs : FileSystemType) (first last : Int) :
    (recreate x d w fs first last).core
      = w.core ++ [⟨CoreCall.deletePartition d.m_device d.m_partition,
                    (recreate x d w fs first last).partitions⟩,
                   ⟨CoreCall.createPartition d.m_device w.next,
                    (recreate x d w fs first last).partitions⟩] := by
  simp [recreate, World.coreCall, World.setFormat, World.setMountPoint, World.store,
    World.alloc]

theorem next_recreate (x : Externals) (d : EditExistingPartitionDialog) (w : World)
    (fs : FileSystemType) (first last : Int) :
    (recreate x d w fs first last).next = w.next + 1 := rfl

theorem partitions_recreate_new (x : Externals) (d : EditExistingPartitionDialog) (w : World)
    (fs : FileSystemType) (first last : Int) (hlive : d.m_partition < w.next) :
    (recreate x d w fs first last).partitions w.next
      = PartitionInfo.setFormat
          (PartitionInfo.setMountPoint
            (x.createNewPartition (w.partitions d.m_partition).parent d.m_device
              (w.partitions d.m_partition).roles fs first last)
            (PartitionInfo.mountPoint (w.partitions d.m_partition)))
          true := by
  have hne : ¬ d.m_partition = w.next := Nat.ne_of_lt hlive
  simp [recreate, World.coreCall, World.setFormat, World.setMountPoint, World.store,
    World.alloc, hne]

theorem partitions_recreate_old (x : Externals) (d : EditExistingPartitionDialog) (w : World)
    (fs : FileSystemType) (first last : Int) (q : PartitionPtr) (hq : q ≠ w.next) :
    (recreate x d w fs first last).partitions q = w.partitions q := by
  simp [recreate, World.coreCall, World.setFormat, World.setMountPoint, World.store,
    World.alloc, hq]

theorem partitions_setMountPoint_self (w : World) (p : PartitionPtr) (s : String) :
    (w.setMountPoint p s).partitions p = PartitionInfo.setMountPoint (w.partitions p) s := by
  simp [World.setMountPoint, World.store]

/-- When the format radio button is not checked, `applyChanges` is the mount point update
followed by one core call. -/
theorem applyChanges_keep (x : Externals) (d : EditExistingPartitionDialog) (w : World)
    (hkeep : d.m_ui.formatRadioButton.isChecked = false) :
    applyChanges x d w =
      (w.setMountPoint d.m_partition d.m_ui.mountPointComboBox.currentText).coreCall
        (if partitionChanged d (w.partitions d.m_partition) then
          CoreCall.resizePartition d.m_device d.m_partition
            d.m_partitionSizeController.firstSector d.m_partitionSizeController.lastSector
         else CoreCall.refreshPartition d.m_device d.m_partition) := by
  have hc : partitionChanged d ((w.setMountPoint d.m_partition
      d.m_ui.mountPointComboBox.currentText).partitions d.m_partition)
      = partitionChanged d (w.partitions d.m_partition) := by
    rw [partitions_setMountPoint_self]; rfl
  rw [applyChanges_blocks]
  simp only [hc, hkeep, Bool.false_eq_true, if_false]
  split_ifs <;> rfl

/-- When the format radio button is checked and the partition is recreated, `applyChanges`
is the mount point update followed by the delete-and-recreate block on the controller's
sectors. -/
theorem applyChanges_recreate (x : Externals) (d : EditExistingPartitionDialog) (w : World)
    (hformat : d.m_ui.formatRadioButton.isChecked = true)
    (hre : (d.m_partitionSizeController.firstSector ≠ (w.partitions d.m_partition).firstSector
            ∨ d.m_partitionSizeController.lastSector
                ≠ (w.partitions d.m_partition).lastSector)
          ∨ (w.partitions d.m_partition).fileSystemType
              ≠ fsType x d (w.partitions d.m_partition)) :
    applyChanges x d w =
      recreate x d (w.setMountPoint d.m_partition d.m_ui.mountPointComboBox.currentText)
        (fsType x d (w.partitions d.m_partition))
        d.m_partitionSizeController.firstSector d.m_partitionSizeController.lastSector := by
  have hp := partitions_setMountPoint_self w d.m_partition d.m_ui.mountPointComboBox.currentText
  have hc : partitionChanged d ((w.setMountPoint d.m_partition
      d.m_ui.mountPointComboBox.currentText).partitions d.m_partition)
      = partitionChanged d (w.partitions d.m_partition) := by rw [hp]; rfl
  have hf : fsType x d ((w.setMountPoint d.m_partition
      d.m_ui.mountPointComboBox.currentText).partitions d.m_partition)
      = fsType x d (w.partitions d.m_partition) := by rw [hp]; rfl
  have ht : ((w.setMountPoint d.m_partition
      d.m_ui.mountPointComboBox.currentText).partitions d.m_partition).fileSystemType
      = (w.partitions d.m_partition).fileSystemType := by rw [hp]; rfl
  have hfs : ((w.setMountPoint d.m_partition
      d.m_ui.mountPointComboBox.currentText).partitions d.m_partition).firstSector
      = (w.partitions d.m_partition).firstSector := by rw [hp]; rfl
  have hls : ((w.setMountPoint d.m_partition
      d.m_ui.mountPointComboBox.currentText).partitions d.m_partition).lastSector
      = (w.partitions d.m_partition).lastSector := by rw [hp]; rfl
  rw [applyChanges_blocks]
  simp only [hc, hf, ht, hfs, hls, hformat, if_true]
  by_cases hch : partitionChanged d (w.partitions d.m_partition) = true
  · rw [if_pos hch]
  · rw [if_neg hch]
    have hsame := (partitionChanged_iff d (w.partitions d.m_partition)).not.mp hch
    push_neg at hsame
    rcases hre with h | h
    · exact absurd ((partitionChanged_iff d _).mpr h) hch
    · rw [if_neg h, hsame.1, hsame.2]

/-- When the format radio button is checked, the sectors are unchanged and the filesystem
type is the computed one, `applyChanges` is the mount point update followed by
`formatPartition`. -/
theorem applyChanges_format_in_place (x : Externals) (d : EditExistingPartitionDialog)
    (w : World) (hformat : d.m_ui.formatRadioButton.isChecked = true)
    (hsame : ¬ (d.m_partitionSizeController.firstSector
                  ≠ (w.partitions d.m_partition).firstSector
                ∨ d.m_partitionSizeController.lastSector
                  ≠ (w.partitions d.m_partition).lastSector))
    (htype : (w.partitions d.m_partition).fileSystemType
              = fsType x d (w.partitions d.m_partition)) :
    applyChanges x d w =
      (w.setMountPoint d.m_partition d.m_ui.mountPointComboBox.currentText).coreCall
        (CoreCall.formatPartition d.m_device d.m_partition) := by
  have hp := partitions_setMountPoint_self w d.m_partition d.m_ui.mountPointComboBox.currentText
  have hc : partitionChanged d ((w.setMountPoint d.m_partition
      d.m_ui.mountPointComboBox.currentText).partitions d.m_partition)
      = partitionChanged d (w.partitions d.m_partition) := by rw [hp]; rfl
  have hf : fsType x d ((w.setMountPoint d.m_partition
      d.m_ui.mountPointComboBox.currentText).partitions d.m_partition)
      = fsType x d (w.partitions d.m_partition) := by rw [hp]; rfl
  have ht : ((w.setMountPoint d.m_partition
      d.m_ui.mountPointComboBox.currentText).partitions d.m_partition).fileSystemType
      = (w.partitions d.m_partition).fileSystemType := by rw [hp]; rfl
  have hch : ¬ partitionChanged d (w.partitions d.m_partition) = true :=
    fun h => hsame ((partitionChanged_iff d _).mp h)
  rw [applyChanges_blocks]
  simp only [hc, hf, ht, hformat, if_true]
  rw [if_neg hch, if_pos htype]

theorem eventsMade_coreCall (w w1 : World) (c : CoreCall) (h : w1.core = w.core) :
    (w1.coreCall c).core.drop w.core.length = [⟨c, w1.partitions⟩] := by
  simp [World.coreCall, h]

theorem core_setMountPoint (w : World) (p : PartitionPtr) (s : String) :
    (w.setMountPoint p s).core = w.core := rfl

theorem partitions_setMountPoint_other (w : World) (p q : PartitionPtr) (s : String)
    (hq : q ≠ p) : (w.setMountPoint p s).partitions q = w.partitions q := by
  simp [World.setMountPoint, World.store, hq]

/-- The object built by the delete-and-recreate block is the result of `createNewPartition`
on the block's arguments, with some mount point and the format flag set. -/
theorem partitions_recreate_built (x : Externals) (d : EditExistingPartitionDialog)
    (w : World) (fs : FileSystemType) (first last : Int) :
    ∃ mp, (recreate x d w fs first last).partitions w.next
      = PartitionInfo.setFormat
          (PartitionInfo.setMountPoint
            (x.createNewPartition (w.partitions d.m_partition).parent d.m_device
              (w.partitions d.m_partition).roles fs first last) mp)
          true := by
  refine ⟨PartitionInfo.mountPoint ((w.alloc (x.createNewPartition
    (w.partitions d.m_partition).parent d.m_device (w.partitions d.m_partition).roles
    fs first last)).2.partitions d.m_partition), ?_⟩
  simp [recreate, World.coreCall, World.setFormat, World.setMountPoint, World.store,
    World.alloc]

theorem canMount_eq_false_iff (t : FileSystemType) :
    canMount t = false ↔
      (t = FileSystemType.Extended ∨ t = FileSystemType.LinuxSwap
        ∨ t = FileSystemType.Unformatted ∨ t = FileSystemType.Unknown
        ∨ t = FileSystemType.Lvm2_PV) := by
  cases t <;> simp [canMount]

theorem canMount_eq_true_iff (t : FileSystemType) :
    canMount t = true ↔
      (t ≠ FileSystemType.Extended ∧ t ≠ FileSystemType.LinuxSwap
        ∧ t ≠ FileSystemType.Unformatted ∧ t ≠ FileSystemType.Unknown
        ∧ t ≠ FileSystemType.Lvm2_PV) := by
  cases t <;> simp [canMount]

/-- The widgets after `updateMountPointPicker`, field by field. -/
theorem updateMountPointPicker_ui (x : Externals) (d : EditExistingPartitionDialog)
    (w : World) :
    updateMountPointPicker x d w =
      { d with m_ui :=
          { d.m_ui with
            mountPointLabel := ⟨canMount (pickerFsType x d w)⟩
            mountPointComboBox :=
              ⟨if canMount (pickerFsType x d w) = true then
                  d.m_ui.mountPointComboBox.currentText else "",
               canMount (pickerFsType x d w)⟩ } } := by
  unfold updateMountPointPicker
  cases hcm : canMount (pickerFsType x d w) <;>
    simp [QLabel.setEnabled, QComboBox.setEnabled, QComboBox.setCurrentText]

/-! ## applyChanges: the dispatch -/

/-- C1. `applyChanges` is a four-way dispatch. With `changed` (the controller's first or
last sector differs from the partition's), `format` (the format radio button is checked) and
`sameType` (the partition's filesystem type equals the computed `fsType`), the calls made on
the core are `[resizePartition]` when changed and not format, `[refreshPartition]` when
neither, `[formatPartition]` when not changed, format and sameType, and
`[deletePartition, createPartition]` when format and (changed or not sameType); the earlier
calls of the log are kept, no other sequence occurs, and the sequence is never empty. -/
theorem applyChanges_four_way_dispatch (x : Externals) (d : EditExistingPartitionDialog)
    (w : World) :
    (applyChanges x d w).calls = w.calls ++ callsMade x d w
    ∧ (((d.m_partitionSizeController.firstSector ≠ (w.partitions d.m_partition).firstSector
          ∨ d.m_partitionSizeController.lastSector ≠ (w.partitions d.m_partition).lastSector)
        ∧ d.m_ui.formatRadioButton.isChecked = false) →
        callsMade x d w = [CoreCall.resizePartition d.m_device d.m_partition
          d.m_partitionSizeController.firstSector d.m_partitionSizeController.lastSector])
    ∧ ((¬ (d.m_partitionSizeController.firstSector ≠ (w.partitions d.m_partition).firstSector
          ∨ d.m_partitionSizeController.lastSector ≠ (w.partitions d.m_partition).lastSector)
        ∧ d.m_ui.formatRadioButton.isChecked = false) →
        callsMade x d w = [CoreCall.refreshPartition d.m_device d.m_partition])
    ∧ ((¬ (d.m_partitionSizeController.firstSector ≠ (w.partitions d.m_partition).firstSector
          ∨ d.m_partitionSizeController.lastSector ≠ (w.partitions d.m_partition).lastSector)
        ∧ d.m_ui.formatRadioButton.isChecked = true
        ∧ (w.partitions d.m_partition).fileSystemType
            = fsType x d (w.partitions d.m_partition)) →
        callsMade x d w = [CoreCall.formatPartition d.m_device d.m_partition])
    ∧ ((d.m_ui.formatRadioButton.isChecked = true
        ∧ ((d.m_partitionSizeController.firstSector ≠ (w.partitions d.m_partition).firstSector
            ∨ d.m_partitionSizeController.lastSector
                ≠ (w.partitions d.m_partition).lastSector)
          ∨ (w.partitions d.m_partition).fileSystemType
              ≠ fsType x d (w.partitions d.m_partition))) →
        callsMade x d w = [CoreCall.deletePartition d.m_device d.m_partition,
                           CoreCall.createPartition d.m_device w.next])
    ∧ (callsMade x d w = [CoreCall.resizePartition d.m_device d.m_partition
          d.m_partitionSizeController.firstSector d.m_partitionSizeController.lastSector]
      ∨ callsMade x d w = [CoreCall.refreshPartition d.m_device d.m_partition]
      ∨ callsMade x d w = [CoreCall.formatPartition d.m_device d.m_partition]
      ∨ callsMade x d w = [CoreCall.deletePartition d.m_device d.m_partition,
                           CoreCall.createPartition d.m_device w.next])
    ∧ callsMade x d w ≠ [] := by
  have hc := partitionChanged_iff d (w.partitions d.m_partition)
  refine ⟨?_, ?_, ?_, ?_, ?_, ?_, ?_⟩
  · rw [calls_applyChanges, callsMade_eq]
  · rintro ⟨h1, h2⟩
    rw [callsMade_eq, if_pos (hc.mpr h1), h2]; rfl
  · rintro ⟨h1, h2⟩
    have h1b : ¬ partitionChanged d (w.partitions d.m_partition) = true := fun h => h1 (hc.mp h)
    rw [callsMade_eq, if_neg h1b, h2]; rfl
  · rintro ⟨h1, h2, h3⟩
    have h1b : ¬ partitionChanged d (w.partitions d.m_partition) = true := fun h => h1 (hc.mp h)
    rw [callsMade_eq, if_neg h1b, if_pos h2, if_pos h3]
  · rintro ⟨h2, h1 | h3⟩
    · rw [callsMade_eq, if_pos (hc.mpr h1), if_pos h2]
    · rw [callsMade_eq, if_pos h2, if_neg h3]; simp [h2]
  · rw [callsMade_eq]; split_ifs <;> simp
  · rw [callsMade_eq]; split_ifs <;> simp

/-- A run of `applyChanges` with the sectors grown and "keep" chosen makes the single call
`resizePartition( 7, 0, 2048, 8191 )`, starting from a format radio button not checked. -/
theorem applyChanges_four_way_dispatch_witness :
    (Demo.dialog false "ext4" "/home" 2048 8191).m_ui.formatRadioButton.isChecked = false
    ∧ callsMade Demo.externals (Demo.dialog false "ext4" "/home" 2048 8191)
        (Demo.world Demo.primaryPartition) = [CoreCall.resizePartition 7 0 2048 8191] :=
  ⟨rfl, (applyChanges_four_way_dispatch Demo.externals
      (Demo.dialog false "ext4" "/home" 2048 8191)
      (Demo.world Demo.primaryPartition)).2.1 ⟨Or.inr (by decide), rfl⟩⟩

/-! ## applyChanges: keep -/

/-- C2. Choosing "keep" is non-destructive: when the format radio button is not checked,
the only core call of `applyChanges` is one `resizePartition` (sectors changed) or one
`refreshPartition` (sectors unchanged), made on `m_device` and `m_partition`; no call is a
`deletePartition`, `createPartition` or `formatPartition`, no partition object is created
and no partition object other than `m_partition` is written. -/
theorem applyChanges_keep_nondestructive (x : Externals) (d : EditExistingPartitionDialog)
    (w : World) (hkeep : d.m_ui.formatRadioButton.isChecked = false) :
    ((d.m_partitionSizeController.firstSector ≠ (w.partitions d.m_partition).firstSector
        ∨ d.m_partitionSizeController.lastSector ≠ (w.partitions d.m_partition).lastSector) →
      callsMade x d w = [CoreCall.resizePartition d.m_device d.m_partition
        d.m_partitionSizeController.firstSector d.m_partitionSizeController.lastSector])
    ∧ (¬ (d.m_partitionSizeController.firstSector ≠ (w.partitions d.m_partition).firstSector
        ∨ d.m_partitionSizeController.lastSector ≠ (w.partitions d.m_partition).lastSector) →
      callsMade x d w = [CoreCall.refreshPartition d.m_device d.m_partition])
    ∧ (∀ c ∈ callsMade x d w, ∀ dev p,
        c ≠ CoreCall.deletePartition dev p ∧ c ≠ CoreCall.createPartition dev p
          ∧ c ≠ CoreCall.formatPartition dev p)
    ∧ (applyChanges x d w).next = w.next
    ∧ (∀ q, q ≠ d.m_partition → (applyChanges x d w).partitions q = w.partitions q) := by
  have hc := partitionChanged_iff d (w.partitions d.m_partition)
  have hm := callsMade_eq x d w
  simp only [hkeep, Bool.false_eq_true, if_false] at hm
  refine ⟨?_, ?_, ?_, ?_, ?_⟩
  · intro h
    rw [hm, if_pos (hc.mpr h)]
  · intro h
    rw [hm, if_neg (fun h2 => h (hc.mp h2))]
  · intro c hcm dev p
    rw [hm] at hcm
    split_ifs at hcm <;> simp at hcm <;> subst hcm <;> simp
  · rw [applyChanges_keep x d w hkeep]; rfl
  · intro q hq
    rw [applyChanges_keep x d w hkeep]
    exact partitions_setMountPoint_other w d.m_partition q _ hq

/-- With "keep" chosen and unchanged sectors the single call is `refreshPartition( 7, 0 )`. -/
theorem applyChanges_keep_nondestructive_witness :
    (Demo.dialog false "ext4" "/home" 2048 4095).m_ui.formatRadioButton.isChecked = false
    ∧ callsMade Demo.externals (Demo.dialog false "ext4" "/home" 2048 4095)
        (Demo.world Demo.primaryPartition) = [CoreCall.refreshPartition 7 0] :=
  ⟨rfl, (applyChanges_keep_nondestructive Demo.externals
      (Demo.dialog false "ext4" "/home" 2048 4095)
      (Demo.world Demo.primaryPartition) rfl).2.1 (by decide)⟩

/-! ## applyChanges: delete and recreate -/

/-- C3. Whenever `applyChanges` recreates the partition (format checked, and the sectors
changed or the filesystem type differs from the computed one), the calls are
`deletePartition` of `m_partition` and then `createPartition` of the new object; the new
object is what `createNewPartition` returns for the original partition's parent and roles,
the computed `fsType` and the size controller's first and last sector, with the mount point
and the format flag set, and it is in that state when the core receives the two calls; when
the sectors are unchanged the partition's own sectors are passed, which are the
controller's; the format flag of the new object is `true`. The partition `m_partition` is a
live object, so the address of the new object is another one. -/
theorem applyChanges_recreate_delete_then_create (x : Externals)
    (d : EditExistingPartitionDialog) (w : World) (hlive : d.m_partition < w.next)
    (hformat : d.m_ui.formatRadioButton.isChecked = true)
    (hre : (d.m_partitionSizeController.firstSector ≠ (w.partitions d.m_partition).firstSector
            ∨ d.m_partitionSizeController.lastSector
                ≠ (w.partitions d.m_partition).lastSector)
          ∨ (w.partitions d.m_partition).fileSystemType
              ≠ fsType x d (w.partitions d.m_partition)) :
    callsMade x d w = [CoreCall.deletePartition d.m_device d.m_partition,
                       CoreCall.createPartition d.m_device w.next]
    ∧ (applyChanges x d w).partitions w.next
        = PartitionInfo.setFormat
            (PartitionInfo.setMountPoint
              (x.createNewPartition (w.partitions d.m_partition).parent d.m_device
                (w.partitions d.m_partition).roles (fsType x d (w.partitions d.m_partition))
                d.m_partitionSizeController.firstSector
                d.m_partitionSizeController.lastSector)
              d.m_ui.mountPointComboBox.currentText)
            true
    ∧ (∀ e ∈ eventsMade x d w, e.seen w.next = (applyChanges x d w).partitions w.next)
    ∧ (¬ (d.m_partitionSizeController.firstSector ≠ (w.partitions d.m_partition).firstSector
          ∨ d.m_partitionSizeController.lastSector
              ≠ (w.partitions d.m_partition).lastSector) →
        (applyChanges x d w).partitions w.next
          = PartitionInfo.setFormat
              (PartitionInfo.setMountPoint
                (x.createNewPartition (w.partitions d.m_partition).parent d.m_device
                  (w.partitions d.m_partition).roles (fsType x d (w.partitions d.m_partition))
                  (w.partitions d.m_partition).firstSector
                  (w.partitions d.m_partition).lastSector)
                d.m_ui.mountPointComboBox.currentText)
              true)
    ∧ ((applyChanges x d w).partitions w.next).format = true := by
  have hc := partitionChanged_iff d (w.partitions d.m_partition)
  have hrun := applyChanges_recreate x d w hformat hre
  have hlive1 : d.m_partition
      < (w.setMountPoint d.m_partition d.m_ui.mountPointComboBox.currentText).next := hlive
  have hnew : (applyChanges x d w).partitions w.next
      = PartitionInfo.setFormat
          (PartitionInfo.setMountPoint
            (x.createNewPartition (w.partitions d.m_partition).parent d.m_device
              (w.partitions d.m_partition).roles (fsType x d (w.partitions d.m_partition))
              d.m_partitionSizeController.firstSector
              d.m_partitionSizeController.lastSector)
            d.m_ui.mountPointComboBox.currentText)
          true := by
    rw [hrun]
    have h := partitions_recreate_new x d
      (w.setMountPoint d.m_partition d.m_ui.mountPointComboBox.currentText)
      (fsType x d (w.partitions d.m_partition))
      d.m_partitionSizeController.firstSector d.m_partitionSizeController.lastSector hlive1
    rw [partitions_setMountPoint_self] at h
    exact h
  refine ⟨?_, hnew, ?_, ?_, ?_⟩
  · rw [callsMade_eq, hformat]
    by_cases hch : partitionChanged d (w.partitions d.m_partition) = true
    · rw [if_pos hch, if_pos rfl]
    · rw [if_neg hch, if_pos rfl]
      rcases hre with h | h
      · exact absurd (hc.mpr h) hch
      · rw [if_neg h]
  · intro e he
    unfold eventsMade at he
    rw [hrun, core_recreate, core_setMountPoint] at he
    simp only [List.drop_left, List.mem_cons, List.mem_singleton, List.not_mem_nil,
      or_false] at he
    rcases he with he | he <;> rw [he, hrun]
  · intro hsame
    push_neg at hsame
    rw [hnew, hsame.1, hsame.2]
  · rw [hnew]; rfl

/-- Formatting a grown ext4 partition as xfs with mount point "/home": the original at
address 0 is deleted, then the new object at address 1 is created, built on sectors
2048..8191 with type xfs, mount point "/home" and the format flag set. -/
theorem applyChanges_recreate_delete_then_create_witness :
    (Demo.dialog true "xfs" "/home" 2048 8191).m_partition
        < (Demo.world Demo.primaryPartition).next
    ∧ callsMade Demo.externals (Demo.dialog true "xfs" "/home" 2048 8191)
        (Demo.world Demo.primaryPartition)
        = [CoreCall.deletePartition 7 0, CoreCall.createPartition 7 1]
    ∧ (applyChanges Demo.externals (Demo.dialog true "xfs" "/home" 2048 8191)
        (Demo.world Demo.primaryPartition)).partitions 1
        = { parent := 3, roles := ⟨[RoleFlag.Primary]⟩,
            fileSystemType := FileSystemType.other 11, firstSector := 2048,
            lastSector := 8191, mountPoint := "/home", format := true } :=
  ⟨by decide,
   (applyChanges_recreate_delete_then_create Demo.externals
      (Demo.dialog true "xfs" "/home" 2048 8191) (Demo.world Demo.primaryPartition)
      (by decide) rfl (Or.inl (Or.inr (by decide)))).1,
   (applyChanges_recreate_delete_then_create Demo.externals
      (Demo.dialog true "xfs" "/home" 2048 8191) (Demo.world Demo.primaryPartition)
      (by decide) rfl (Or.inl (Or.inr (by decide)))).2.1.trans (by decide)⟩

/-! ## applyChanges: the mount point -/

/-- C4. The new mount point reaches the partition that survives `applyChanges`. The
partition `m_partition` is a live object. Every core call the run makes is made in a heap
where the mount point of `m_partition` already is the text of the mount point combo box, at
least one such call is made, and the mount point is still that text after the run; in the
branches that delete and recreate the partition, the mount point of the newly created object
is the same text, already when the core receives the calls. `PartitionInfo::mountPoint`
returns what `PartitionInfo::setMountPoint` stored. -/
theorem applyChanges_mount_point_reaches_survivor (x : Externals)
    (d : EditExistingPartitionDialog) (w : World) (hlive : d.m_partition < w.next) :
    (∀ e ∈ eventsMade x d w,
        PartitionInfo.mountPoint (e.seen d.m_partition) = d.m_ui.mountPointComboBox.currentText)
    ∧ eventsMade x d w ≠ []
    ∧ PartitionInfo.mountPoint ((applyChanges x d w).partitions d.m_partition)
        = d.m_ui.mountPointComboBox.currentText
    ∧ ((d.m_ui.formatRadioButton.isChecked = true
        ∧ ((d.m_partitionSizeController.firstSector ≠ (w.partitions d.m_partition).firstSector
            ∨ d.m_partitionSizeController.lastSector
                ≠ (w.partitions d.m_partition).lastSector)
          ∨ (w.partitions d.m_partition).fileSystemType
              ≠ fsType x d (w.partitions d.m_partition))) →
        PartitionInfo.mountPoint ((applyChanges x d w).partitions w.next)
            = d.m_ui.mountPointComboBox.currentText
        ∧ ∀ e ∈ eventsMade x d w,
            PartitionInfo.mountPoint (e.seen w.next)
              = d.m_ui.mountPointComboBox.currentText) := by
  have hne : d.m_partition ≠ w.next := Nat.ne_of_lt hlive
  have hlive1 : d.m_partition
      < (w.setMountPoint d.m_partition d.m_ui.mountPointComboBox.currentText).next := hlive
  have hself := partitions_setMountPoint_self w d.m_partition
    d.m_ui.mountPointComboBox.currentText
  -- the state of the new object and of `m_partition` after a recreating run
  have hrec : ∀ fs first last,
      PartitionInfo.mountPoint ((recreate x d
          (w.setMountPoint d.m_partition d.m_ui.mountPointComboBox.currentText)
          fs first last).partitions d.m_partition) = d.m_ui.mountPointComboBox.currentText
      ∧ PartitionInfo.mountPoint ((recreate x d
          (w.setMountPoint d.m_partition d.m_ui.mountPointComboBox.currentText)
          fs first last).partitions w.next) = d.m_ui.mountPointComboBox.currentText := by
    intro fs first last
    constructor
    · rw [partitions_recreate_old x d
        (w.setMountPoint d.m_partition d.m_ui.mountPointComboBox.currentText)
        fs first last d.m_partition hne, hself]
      rfl
    · have h := partitions_recreate_new x d
        (w.setMountPoint d.m_partition d.m_ui.mountPointComboBox.currentText)
        fs first last hlive1
      rw [hself] at h
      have hn : (w.setMountPoint d.m_partition d.m_ui.mountPointComboBox.currentText).next
          = w.next := rfl
      rw [hn] at h
      rw [h]; rfl
  by_cases hformat : d.m_ui.formatRadioButton.isChecked = true
  · by_cases hre : (d.m_partitionSizeController.firstSector
          ≠ (w.partitions d.m_partition).firstSector
        ∨ d.m_partitionSizeController.lastSector ≠ (w.partitions d.m_partition).lastSector)
        ∨ (w.partitions d.m_partition).fileSystemType
            ≠ fsType x d (w.partitions d.m_partition)
    · have hrun := applyChanges_recreate x d w hformat hre
      have hev : eventsMade x d w
          = [⟨CoreCall.deletePartition d.m_device d.m_partition,
              (applyChanges x d w).partitions⟩,
             ⟨CoreCall.createPartition d.m_device w.next,
              (applyChanges x d w).partitions⟩] := by
        unfold eventsMade
        rw [hrun, core_recreate, core_setMountPoint]
        simp only [List.drop_left]
        rfl
      have hr := hrec (fsType x d (w.partitions d.m_partition))
        d.m_partitionSizeController.firstSector d.m_partitionSizeController.lastSector
      rw [← hrun] at hr
      refine ⟨?_, ?_, hr.1, ?_⟩
      · intro e he
        rw [hev] at he
        simp only [List.mem_cons, List.mem_singleton, List.not_mem_nil, or_false] at he
        rcases he with he | he <;> rw [he] <;> exact hr.1
      · rw [hev]; simp
      · intro _
        refine ⟨hr.2, ?_⟩
        intro e he
        rw [hev] at he
        simp only [List.mem_cons, List.mem_singleton, List.not_mem_nil, or_false] at he
        rcases he with he | he <;> rw [he] <;> exact hr.2
    · push_neg at hre
      have hsame : ¬ (d.m_partitionSizeController.firstSector
            ≠ (w.partitions d.m_partition).firstSector
          ∨ d.m_partitionSizeController.lastSector
            ≠ (w.partitions d.m_partition).lastSector) := by
        push_neg; exact hre.1
      have hrun := applyChanges_format_in_place x d w hformat hsame hre.2
      have hev : eventsMade x d w
          = [⟨CoreCall.formatPartition d.m_device d.m_partition,
              (w.setMountPoint d.m_partition
                d.m_ui.mountPointComboBox.currentText).partitions⟩] := by
        unfold eventsMade
        rw [hrun]
        exact eventsMade_coreCall w _ _ rfl
      refine ⟨?_, ?_, ?_, ?_⟩
      · intro e he
        rw [hev] at he
        simp only [List.mem_singleton] at he
        rw [he]
        show PartitionInfo.mountPoint ((w.setMountPoint d.m_partition
          d.m_ui.mountPointComboBox.currentText).partitions d.m_partition) = _
        rw [hself]; rfl
      · rw [hev]; simp
      · rw [hrun]
        show PartitionInfo.mountPoint ((w.setMountPoint d.m_partition
          d.m_ui.mountPointComboBox.currentText).partitions d.m_partition) = _
        rw [hself]; rfl
      · rintro ⟨_, h | h⟩
        · exact absurd h hsame
        · exact absurd hre.2 h
  · have hkeep : d.m_ui.formatRadioButton.isChecked = false := by
      simpa using hformat
    have hrun := applyChanges_keep x d w hkeep
    have hev : ∃ c, eventsMade x d w
        = [⟨c, (w.setMountPoint d.m_partition
              d.m_ui.mountPointComboBox.currentText).partitions⟩] := by
      unfold eventsMade
      rw [hrun]
      exact ⟨_, eventsMade_coreCall w _ _ rfl⟩
    obtain ⟨c, hev⟩ := hev
    refine ⟨?_, ?_, ?_, ?_⟩
    · intro e he
      rw [hev] at he
      simp only [List.mem_singleton] at he
      rw [he]
      show PartitionInfo.mountPoint ((w.setMountPoint d.m_partition
        d.m_ui.mountPointComboBox.currentText).partitions d.m_partition) = _
      rw [hself]; rfl
    · rw [hev]; simp
    · rw [hrun]
      show PartitionInfo.mountPoint ((w.setMountPoint d.m_partition
        d.m_ui.mountPointComboBox.currentText).partitions d.m_partition) = _
      rw [hself]; rfl
    · rintro ⟨h, _⟩
      exact absurd h hformat

/-- Formatting an ext4 partition as xfs in place with mount point "/srv": after the run
both the original object (address 0) and the new object (address 1) carry "/srv". -/
theorem applyChanges_mount_point_reaches_survivor_witness :
    (Demo.dialog true "xfs" "/srv" 2048 4095).m_partition
        < (Demo.world Demo.primaryPartition).next
    ∧ PartitionInfo.mountPoint ((applyChanges Demo.externals
        (Demo.dialog true "xfs" "/srv" 2048 4095)
        (Demo.world Demo.primaryPartition)).partitions 0) = "/srv"
    ∧ PartitionInfo.mountPoint ((applyChanges Demo.externals
        (Demo.dialog true "xfs" "/srv" 2048 4095)
        (Demo.world Demo.primaryPartition)).partitions 1) = "/srv" :=
  ⟨by decide,
   (applyChanges_mount_point_reaches_survivor Demo.externals
      (Demo.dialog true "xfs" "/srv" 2048 4095) (Demo.world Demo.primaryPartition)
      (by decide)).2.2.1,
   ((applyChanges_mount_point_reaches_survivor Demo.externals
      (Demo.dialog true "xfs" "/srv" 2048 4095) (Demo.world Demo.primaryPartition)
      (by decide)).2.2.2 ⟨rfl, Or.inr (by decide)⟩).1⟩

/-! ## applyChanges: resize -/

/-- C5. Resize bounds are passed through unchanged: with the format radio button not
checked and the first or the last sector differing from the partition's (one of the two is
enough), `applyChanges` makes exactly one core call, `resizePartition` on `m_device` and
`m_partition` with the size controller's `firstSector()` and `lastSector()`; when both
bounds equal the partition's, no call of the run is a `resizePartition`. -/
theorem applyChanges_resize_bounds_pass_through (x : Externals)
    (d : EditExistingPartitionDialog) (w : World) :
    (d.m_ui.formatRadioButton.isChecked = false →
      (d.m_partitionSizeController.firstSector ≠ (w.partitions d.m_partition).firstSector
        ∨ d.m_partitionSizeController.lastSector ≠ (w.partitions d.m_partition).lastSector) →
      callsMade x d w = [CoreCall.resizePartition d.m_device d.m_partition
        d.m_partitionSizeController.firstSector d.m_partitionSizeController.lastSector])
    ∧ (d.m_partitionSizeController.firstSector = (w.partitions d.m_partition).firstSector →
       d.m_partitionSizeController.lastSector = (w.partitions d.m_partition).lastSector →
       ∀ c ∈ callsMade x d w, ∀ dev p first last,
         c ≠ CoreCall.resizePartition dev p first last) := by
  have hc := partitionChanged_iff d (w.partitions d.m_partition)
  have hm := callsMade_eq x d w
  constructor
  · intro hkeep h
    simp only [hkeep, Bool.false_eq_true, if_false] at hm
    rw [hm, if_pos (hc.mpr h)]
  · intro h1 h2 c hcm dev p first last
    have hch : ¬ partitionChanged d (w.partitions d.m_partition) = true := by
      intro h
      rcases hc.mp h with h | h
      · exact h h1
      · exact h h2
    rw [hm, if_neg hch] at hcm
    split_ifs at hcm <;> simp at hcm
    · subst hcm; simp
    · rcases hcm with hcm | hcm <;> subst hcm <;> simp
    · subst hcm; simp

/-- Moving only the last sector of a kept partition from 4095 to 8191 makes the single call
`resizePartition( 7, 0, 2048, 8191 )`. -/
theorem applyChanges_resize_bounds_pass_through_witness :
    (Demo.dialog false "ext4" "/home" 2048 8191).m_partitionSizeController.firstSector
        = ((Demo.world Demo.primaryPartition).partitions 0).firstSector
    ∧ callsMade Demo.externals (Demo.dialog false "ext4" "/home" 2048 8191)
        (Demo.world Demo.primaryPartition) = [CoreCall.resizePartition 7 0 2048 8191] :=
  ⟨rfl, (applyChanges_resize_bounds_pass_through Demo.externals
      (Demo.dialog false "ext4" "/home" 2048 8191)
      (Demo.world Demo.primaryPartition)).1 rfl (Or.inr (by decide))⟩

/-! ## applyChanges: the target filesystem type -/

/-- C6. The target filesystem type computed by `applyChanges` is `Unknown` when format is
not checked, `Extended` when format is checked and the partition's roles include Extended
(whatever the filesystem combo box says), and otherwise `typeForName` of the filesystem
combo box text; it is the type passed to `createNewPartition` when a run with changed
sectors recreates the partition. Consequently, formatting an extended-role partition whose
filesystem type is Extended with unchanged sectors makes the single call
`formatPartition`, whatever the filesystem combo box says. -/
theorem applyChanges_target_fsType (x : Externals) (d : EditExistingPartitionDialog)
    (w : World) :
    (d.m_ui.formatRadioButton.isChecked = false →
      fsType x d (w.partitions d.m_partition) = FileSystemType.Unknown)
    ∧ (d.m_ui.formatRadioButton.isChecked = true →
        (w.partitions d.m_partition).roles.has RoleFlag.Extended = true →
        fsType x d (w.partitions d.m_partition) = FileSystemType.Extended)
    ∧ (d.m_ui.formatRadioButton.isChecked = true →
        (w.partitions d.m_partition).roles.has RoleFlag.Extended = false →
        fsType x d (w.partitions d.m_partition)
          = x.typeForName d.m_ui.fileSystemComboBox.currentText)
    ∧ (d.m_ui.formatRadioButton.isChecked = true →
        (d.m_partitionSizeController.firstSector ≠ (w.partitions d.m_partition).firstSector
          ∨ d.m_partitionSizeController.lastSector
              ≠ (w.partitions d.m_partition).lastSector) →
        ∃ mp, (applyChanges x d w).partitions w.next
          = PartitionInfo.setFormat
              (PartitionInfo.setMountPoint
                (x.createNewPartition (w.partitions d.m_partition).parent d.m_device
                  (w.partitions d.m_partition).roles
                  (if (w.partitions d.m_partition).roles.has RoleFlag.Extended = true then
                    FileSystemType.Extended
                   else x.typeForName d.m_ui.fileSystemComboBox.currentText)
                  d.m_partitionSizeController.firstSector
                  d.m_partitionSizeController.lastSector) mp)
              true)
    ∧ (d.m_ui.formatRadioButton.isChecked = true →
        (w.partitions d.m_partition).roles.has RoleFlag.Extended = true →
        (w.partitions d.m_partition).fileSystemType = FileSystemType.Extended →
        d.m_partitionSizeController.firstSector = (w.partitions d.m_partition).firstSector →
        d.m_partitionSizeController.lastSector = (w.partitions d.m_partition).lastSector →
        callsMade x d w = [CoreCall.formatPartition d.m_device d.m_partition]) := by
  have hc := partitionChanged_iff d (w.partitions d.m_partition)
  refine ⟨?_, ?_, ?_, ?_, ?_⟩
  · intro h
    simp [fsType, h]
  · intro h hr
    simp [fsType, h, hr]
  · intro h hr
    simp [fsType, h, hr]
  · intro h hch
    rw [applyChanges_recreate x d w h (Or.inl hch)]
    obtain ⟨mp, hmp⟩ := partitions_recreate_built x d
      (w.setMountPoint d.m_partition d.m_ui.mountPointComboBox.currentText)
      (fsType x d (w.partitions d.m_partition))
      d.m_partitionSizeController.firstSector d.m_partitionSizeController.lastSector
    refine ⟨mp, ?_⟩
    have hn : (w.setMountPoint d.m_partition d.m_ui.mountPointComboBox.currentText).next
        = w.next := rfl
    rw [hn, partitions_setMountPoint_self] at hmp
    rw [hmp]
    simp [fsType, h, PartitionInfo.setMountPoint]
  · intro h hr ht h1 h2
    have hch : ¬ partitionChanged d (w.partitions d.m_partition) = true := by
      intro hh
      rcases hc.mp hh with hh | hh
      · exact hh h1
      · exact hh h2
    have hfs : (w.partitions d.m_partition).fileSystemType
        = fsType x d (w.partitions d.m_partition) := by
      simp [fsType, h, hr, ht]
    rw [callsMade_eq, if_neg hch, if_pos h, if_pos hfs]

/-- An extended partition, format checked, "ext4" in the filesystem combo box, sectors
unchanged: the computed type is `Extended` and the single call is `formatPartition( 7, 0 )`. -/
theorem applyChanges_target_fsType_witness :
    (Demo.dialog true "ext4" "" 2048 4095).m_ui.formatRadioButton.isChecked = true
    ∧ fsType Demo.externals (Demo.dialog true "ext4" "" 2048 4095)
        ((Demo.world Demo.extendedPartition).partitions 0) = FileSystemType.Extended
    ∧ callsMade Demo.externals (Demo.dialog true "ext4" "" 2048 4095)
        (Demo.world Demo.extendedPartition) = [CoreCall.formatPartition 7 0] :=
  ⟨rfl,
   (applyChanges_target_fsType Demo.externals (Demo.dialog true "ext4" "" 2048 4095)
      (Demo.world Demo.extendedPartition)).2.1 rfl (by decide),
   (applyChanges_target_fsType Demo.externals (Demo.dialog true "ext4" "" 2048 4095)
      (Demo.world Demo.extendedPartition)).2.2.2.2 rfl (by decide) rfl rfl rfl⟩

/-! ## updateMountPointPicker -/

/-- C7. `updateMountPointPicker` enables the mount point label and the mount point combo
box if and only if the effective filesystem type is mountable: the effective type is
`typeForName` of the filesystem combo box text when format is checked and the partition's
filesystem type otherwise, and it is mountable when it is none of Extended, LinuxSwap,
Unformatted, Unknown and Lvm2_PV; label and combo box end up with the same enabled state. -/
theorem updateMountPointPicker_enables_iff_mountable (x : Externals)
    (d : EditExistingPartitionDialog) (w : World) :
    pickerFsType x d w
        = (if d.m_ui.formatRadioButton.isChecked = true then
            x.typeForName d.m_ui.fileSystemComboBox.currentText
           else (w.partitions d.m_partition).fileSystemType)
    ∧ (updateMountPointPicker x d w).m_ui.mountPointLabel.enabled
        = (updateMountPointPicker x d w).m_ui.mountPointComboBox.enabled
    ∧ ((updateMountPointPicker x d w).m_ui.mountPointComboBox.enabled = true ↔
        (pickerFsType x d w ≠ FileSystemType.Extended
          ∧ pickerFsType x d w ≠ FileSystemType.LinuxSwap
          ∧ pickerFsType x d w ≠ FileSystemType.Unformatted
          ∧ pickerFsType x d w ≠ FileSystemType.Unknown
          ∧ pickerFsType x d w ≠ FileSystemType.Lvm2_PV))
    ∧ ((updateMountPointPicker x d w).m_ui.mountPointLabel.enabled = true ↔
        (pickerFsType x d w ≠ FileSystemType.Extended
          ∧ pickerFsType x d w ≠ FileSystemType.LinuxSwap
          ∧ pickerFsType x d w ≠ FileSystemType.Unformatted
          ∧ pickerFsType x d w ≠ FileSystemType.Unknown
          ∧ pickerFsType x d w ≠ FileSystemType.Lvm2_PV)) := by
  refine ⟨rfl, ?_, ?_, ?_⟩
  · rw [updateMountPointPicker_ui]
  · rw [updateMountPointPicker_ui]
    exact canMount_eq_true_iff _
  · rw [updateMountPointPicker_ui]
    exact canMount_eq_true_iff _

/-- C8. `updateMountPointPicker` clears the mount point exactly when the filesystem is not
mountable: if the effective filesystem type is one of Extended, LinuxSwap, Unformatted,
Unknown, Lvm2_PV the mount point combo box text afterwards is empty, otherwise it is left
unchanged; the format radio button, the filesystem combo box and the members of the dialog
other than the widgets are unchanged, so a second run changes nothing. -/
theorem updateMountPointPicker_clears_iff_not_mountable (x : Externals)
    (d : EditExistingPartitionDialog) (w : World) :
    pickerFsType x d w
        = (if d.m_ui.formatRadioButton.isChecked = true then
            x.typeForName d.m_ui.fileSystemComboBox.currentText
           else (w.partitions d.m_partition).fileSystemType)
    ∧ ((pickerFsType x d w = FileSystemType.Extended
          ∨ pickerFsType x d w = FileSystemType.LinuxSwap
          ∨ pickerFsType x d w = FileSystemType.Unformatted
          ∨ pickerFsType x d w = FileSystemType.Unknown
          ∨ pickerFsType x d w = FileSystemType.Lvm2_PV) →
        (updateMountPointPicker x d w).m_ui.mountPointComboBox.currentText = "")
    ∧ (¬ (pickerFsType x d w = FileSystemType.Extended
          ∨ pickerFsType x d w = FileSystemType.LinuxSwap
          ∨ pickerFsType x d w = FileSystemType.Unformatted
          ∨ pickerFsType x d w = FileSystemType.Unknown
          ∨ pickerFsType x d w = FileSystemType.Lvm2_PV) →
        (updateMountPointPicker x d w).m_ui.mountPointComboBox.currentText
          = d.m_ui.mountPointComboBox.currentText)
    ∧ (updateMountPointPicker x d w).m_ui.formatRadioButton = d.m_ui.formatRadioButton
    ∧ (updateMountPointPicker x d w).m_ui.fileSystemComboBox = d.m_ui.fileSystemComboBox
    ∧ (updateMountPointPicker x d w).m_device = d.m_device
    ∧ (updateMountPointPicker x d w).m_partition = d.m_partition
    ∧ (updateMountPointPicker x d w).m_partitionSizeController = d.m_partitionSizeController
    ∧ updateMountPointPicker x (updateMountPointPicker x d w) w
        = updateMountPointPicker x d w := by
  have hsame : pickerFsType x (updateMountPointPicker x d w) w = pickerFsType x d w := by
    rw [updateMountPointPicker_ui]; rfl
  refine ⟨rfl, ?_, ?_, ?_, ?_, ?_, ?_, ?_, ?_⟩
  · intro h
    have hcm := (canMount_eq_false_iff _).mpr h
    rw [updateMountPointPicker_ui]
    simp [hcm]
  · intro h
    have hcm : canMount (pickerFsType x d w) = true := by
      cases hb : canMount (pickerFsType x d w)
      · exact absurd ((canMount_eq_false_iff _).mp hb) h
      · rfl
    rw [updateMountPointPicker_ui]
    simp [hcm]
  · rw [updateMountPointPicker_ui]
  · rw [updateMountPointPicker_ui]
  · rw [updateMountPointPicker_ui]
  · rw [updateMountPointPicker_ui]
  · rw [updateMountPointPicker_ui]
  · rw [updateMountPointPicker_ui x (updateMountPointPicker x d w) w, hsame]
    rw [updateMountPointPicker_ui x d w]
    cases canMount (pickerFsType x d w) <;> simp

/-! ## The picker and applyChanges -/

/-- C9, as stated, fails on an extended partition. With format checked, "ext4" in the
filesystem combo box, "/home" as mount point and unchanged sectors, `updateMountPointPicker`
decides on `Ext4` while `applyChanges` computes `Extended`: the run formats the partition in
place with the non-mountable type `Extended`, yet the picker run on the same state leaves
label and combo box enabled and keeps the mount point "/home". -/
theorem picker_disagrees_with_applyChanges_on_extended :
    (Demo.dialog true "ext4" "/home" 2048 4095).m_ui.formatRadioButton.isChecked = true
    ∧ pickerFsType Demo.externals (Demo.dialog true "ext4" "/home" 2048 4095)
        (Demo.world Demo.extendedPartition) = FileSystemType.Ext4
    ∧ fsType Demo.externals (Demo.dialog true "ext4" "/home" 2048 4095)
        ((Demo.world Demo.extendedPartition).partitions 0) = FileSystemType.Extended
    ∧ pickerFsType Demo.externals (Demo.dialog true "ext4" "/home" 2048 4095)
        (Demo.world Demo.extendedPartition)
        ≠ fsType Demo.externals (Demo.dialog true "ext4" "/home" 2048 4095)
            ((Demo.world Demo.extendedPartition).partitions 0)
    ∧ callsMade Demo.externals (Demo.dialog true "ext4" "/home" 2048 4095)
        (Demo.world Demo.extendedPartition) = [CoreCall.formatPartition 7 0]
    ∧ (updateMountPointPicker Demo.externals (Demo.dialog true "ext4" "/home" 2048 4095)
        (Demo.world Demo.extendedPartition)).m_ui.mountPointLabel.enabled = true
    ∧ (updateMountPointPicker Demo.externals (Demo.dialog true "ext4" "/home" 2048 4095)
        (Demo.world Demo.extendedPartition)).m_ui.mountPointComboBox.enabled = true
    ∧ (updateMountPointPicker Demo.externals (Demo.dialog true "ext4" "/home" 2048 4095)
        (Demo.world Demo.extendedPartition)).m_ui.mountPointComboBox.currentText = "/home" := by
  refine ⟨rfl, ?_, ?_, ?_, ?_, ?_, ?_, ?_⟩ <;> decide

/-- C9, amended. For every dialog state with format checked on a partition whose roles do
not include Extended, the filesystem type on which `updateMountPointPicker` decides equals
the one `applyChanges` computes for the formatted partition; hence whenever that type is
one of Extended, LinuxSwap, Unformatted, Unknown, Lvm2_PV, `updateMountPointPicker` run on
the same state disables label and combo box and clears the mount point. -/
theorem picker_agrees_with_applyChanges_without_extended_role (x : Externals)
    (d : EditExistingPartitionDialog) (w : World)
    (hformat : d.m_ui.formatRadioButton.isChecked = true)
    (hrole : (w.partitions d.m_partition).roles.has RoleFlag.Extended = false) :
    pickerFsType x d w = fsType x d (w.partitions d.m_partition)
    ∧ ((fsType x d (w.partitions d.m_partition) = FileSystemType.Extended
          ∨ fsType x d (w.partitions d.m_partition) = FileSystemType.LinuxSwap
          ∨ fsType x d (w.partitions d.m_partition) = FileSystemType.Unformatted
          ∨ fsType x d (w.partitions d.m_partition) = FileSystemType.Unknown
          ∨ fsType x d (w.partitions d.m_partition) = FileSystemType.Lvm2_PV) →
        (updateMountPointPicker x d w).m_ui.mountPointLabel.enabled = false
        ∧ (updateMountPointPicker x d w).m_ui.mountPointComboBox.enabled = false
        ∧ (updateMountPointPicker x d w).m_ui.mountPointComboBox.currentText = "") := by
  have heq : pickerFsType x d w = fsType x d (w.partitions d.m_partition) := by
    simp [pickerFsType, fsType, hformat, hrole]
  refine ⟨heq, ?_⟩
  intro h
  rw [← heq] at h
  have hcm := (canMount_eq_false_iff _).mpr h
  rw [updateMountPointPicker_ui]
  simp [hcm]

/-- A primary partition formatted as swap with "/home" typed in: both procedures work with
`LinuxSwap`, and the picker disables the mount point widgets and clears the text. -/
theorem picker_agrees_with_applyChanges_without_extended_role_witness :
    (Demo.dialog true "linuxswap" "/home" 2048 4095).m_ui.formatRadioButton.isChecked = true
    ∧ ((Demo.world Demo.primaryPartition).partitions 0).roles.has RoleFlag.Extended = false
    ∧ pickerFsType Demo.externals (Demo.dialog true "linuxswap" "/home" 2048 4095)
        (Demo.world Demo.primaryPartition) = FileSystemType.LinuxSwap
    ∧ (updateMountPointPicker Demo.externals (Demo.dialog true "linuxswap" "/home" 2048 4095)
        (Demo.world Demo.primaryPartition)).m_ui.mountPointComboBox.enabled = false
    ∧ (updateMountPointPicker Demo.externals (Demo.dialog true "linuxswap" "/home" 2048 4095)
        (Demo.world Demo.primaryPartition)).m_ui.mountPointComboBox.currentText = "" :=
  ⟨rfl, by decide, by decide,
   ((picker_agrees_with_applyChanges_without_extended_role Demo.externals
      (Demo.dialog true "linuxswap" "/home" 2048 4095) (Demo.world Demo.primaryPartition)
      rfl (by decide)).2 (Or.inr (Or.inl (by decide)))).2.1,
   ((picker_agrees_with_applyChanges_without_extended_role Demo.externals
      (Demo.dialog true "linuxswap" "/home" 2048 4095) (Demo.world Demo.primaryPartition)
      rfl (by decide)).2 (Or.inr (Or.inl (by decide)))).2.2⟩

end EditExistingPartitionDialog

end Calamares
